import Mathlib

/-!
Shallow embedding of `src/blinkstickcpp/src/device.cpp` (btaczala/blinkstickcpp).

Bytes are modelled as `Nat` values; conversions to `uint8_t` are `% 256`.
The C++ `int` parameter of `determine_report_id` is modelled as `Int`.
The HID transport (hidapi) is an external collaborator: it is modelled as an
oracle `Nat → TransportResp` giving, for the n-th transport call an operation
makes, the integer return value and — for `get_feature_report`, which mutates
the caller's buffer in place — the buffer contents after the call.  Every
device operation returns its result, the updated device state, and the trace
of transport calls it issued (kind and request bytes).
-/

/-- A colour as used by `device.cpp`: the `colour` struct of the public header
(not in `src/`), whose fields `red`, `green`, `blue` are visible from their use
in `device::set_colours`.  Fields are bytes, modelled as `Nat`. -/
structure Colour where
  red : Nat
  green : Nat
  blue : Nat
deriving DecidableEq, Repr, Inhabited

/-- Modelled from the spec: the `mode` enumeration's `unknown` sentinel value
(the header declaring `blinkstick::mode` is not in `src/`).  The spec's wire
table says get-mode sends `[0x04, 0x00]`, i.e. the unknown sentinel is byte 0. -/
def mode_unknown : Nat := 0

/-- `rgb_to_char(red, green, blue)`: masks each channel to 8 bits. -/
def rgb_to_char (red green blue : Nat) : List Nat :=
  [red % 256, green % 256, blue % 256]

/-- `build_control_message(index, channel, color)`: 4-byte legacy format for
`index == 0 && channel == 0`, 6-byte addressed format otherwise. -/
def build_control_message (index channel : Nat) (color : List Nat) : List Nat :=
  if index = 0 ∧ channel = 0 then
    [1, color.getD 0 0, color.getD 1 0, color.getD 2 0]
  else
    [5, channel, index, color.getD 0 0, color.getD 1 0, color.getD 2 0]

/-- `build_mode_message(mode)`: `[0x04, mode]`. -/
def build_mode_message (m : Nat) : List Nat :=
  [4, m % 256]

/-- `build_count_message(count)`: `[0x81, count]`. -/
def build_count_message (count : Nat) : List Nat :=
  [129, count % 256]

/-- `determine_report_id(count)`: starts from the defaults
`max_leds = 64, report_id = 9` and overrides them through the `if`/`else if`
ladder; returns the pair `(report_id, max_leds)`.  A `count` above `128 * 3`
hits no branch, so the defaults `(9, 64)` are returned. -/
def determine_report_id (count : Int) : Nat × Nat :=
  if count ≤ 8 * 3 then (6, 8)
  else if count ≤ 16 * 3 then (7, 16)
  else if count ≤ 32 * 3 then (8, 32)
  else if count ≤ 64 * 3 then (9, 64)
  else if count ≤ 128 * 3 then (10, 64)
  else (9, 64)

/-- Which transport primitive a call used: `hid_send_feature_report`
(const buffer, never mutated) or `hid_get_feature_report` (buffer mutated
in place with the device's reply). -/
inductive CallKind where
  | send : CallKind
  | get : CallKind
deriving DecidableEq, Repr

/-- One transport call: its primitive and the request bytes passed to it. -/
structure Call where
  kind : CallKind
  msg : List Nat
deriving DecidableEq, Repr

/-- The transport's behaviour on one call: the integer return value of the
hidapi function, and (for `get` calls) the buffer contents after the
in-place mutation. -/
structure TransportResp where
  ret : Int
  reply : List Nat

/-- The mutable state of a `blinkstick::device`: whether the held
`shared_ptr<hid_device>` handle is non-null, and the `mutable` cached LED
count (`std::optional`, unset initially). -/
structure DeviceState where
  handleValid : Bool
  led_count : Option Nat
deriving DecidableEq, Repr

/-- `device::set_mode`: builds the mode message, fails on a null handle
without touching the transport, otherwise sends and fails iff the transport
returned `-1`. -/
def set_mode (st : DeviceState) (oracle : Nat → TransportResp) (m : Nat) :
    Bool × DeviceState × List Call :=
  let msg := build_mode_message m
  if st.handleValid = false then (false, st, [])
  else if (oracle 0).ret = -1 then (false, st, [Call.mk CallKind.send msg])
  else (true, st, [Call.mk CallKind.send msg])

/-- `device::get_mode`: builds the mode template with the unknown sentinel and
issues a **send** feature report with no null-handle check; `send` does not
mutate the buffer, so on success the value decoded from `data[1]` is byte 1 of
the template itself. -/
def get_mode (st : DeviceState) (oracle : Nat → TransportResp) :
    Nat × DeviceState × List Call :=
  let data := build_mode_message mode_unknown
  if (oracle 0).ret = -1 then (mode_unknown, st, [Call.mk CallKind.send data])
  else (data.getD 1 0, st, [Call.mk CallKind.send data])

/-- `device::set_colour`: null-handle check, then sends the control message
built from the byte-converted index/channel and masked colour. -/
def set_colour (st : DeviceState) (oracle : Nat → TransportResp)
    (channel index red green blue : Nat) : Bool × DeviceState × List Call :=
  if st.handleValid = false then (false, st, [])
  else
    let color := rgb_to_char red green blue
    let msg := build_control_message (index % 256) (channel % 256) color
    if (oracle 0).ret = -1 then (false, st, [Call.mk CallKind.send msg])
    else (true, st, [Call.mk CallKind.send msg])

/-- `device::get_led_count`: returns the cache when set; otherwise builds the
count message with value 0, issues a **get** feature report (no null-handle
check), and — whatever the result — caches and returns byte 1 of the
in-place-mutated buffer. -/
def get_led_count (st : DeviceState) (oracle : Nat → TransportResp) :
    Nat × DeviceState × List Call :=
  match st.led_count with
  | some n => (n, st, [])
  | none =>
      let data := build_count_message 0
      let mutated := (oracle 0).reply
      let v := mutated.getD 1 0
      (v, DeviceState.mk st.handleValid (some v), [Call.mk CallKind.get data])

/-- `device::set_led_count`: null-handle check, sends the count message, and
on transport success updates the cache to the given (byte-sized) count. -/
def set_led_count (st : DeviceState) (oracle : Nat → TransportResp)
    (count : Nat) : Bool × DeviceState × List Call :=
  if st.handleValid = false then (false, st, [])
  else
    let msg := build_count_message count
    if (oracle 0).ret = -1 then (false, st, [Call.mk CallKind.send msg])
    else (true, DeviceState.mk st.handleValid (some (count % 256)),
          [Call.mk CallKind.send msg])

/-- The body of the copy loop of `device::set_colours`: starting at position
`pos`, writes each colour's bytes into the buffer in GREEN, RED, BLUE order,
advancing the position by three per colour (`msg[index++] = ...`). -/
def writeColours : List Nat → Nat → List Colour → List Nat
  | msg, _, [] => msg
  | msg, pos, c :: cs =>
      writeColours
        (((msg.set pos (c.green % 256)).set (pos + 1) (c.red % 256)).set
          (pos + 2) (c.blue % 256))
        (pos + 3) cs

/-- The outgoing buffer of `device::set_colours(channel, colours)`: a
zero-initialised vector of `max_leds * 3 + 2` bytes with `msg[0] = report_id`,
`msg[1] = channel`, then `min(static_cast<uint8_t>(colours.size()), max_leds)`
colours copied from position 2 onward. -/
def set_colours_msg (report_id max_leds channel : Nat)
    (colours : List Colour) : List Nat :=
  let base := ((List.replicate (max_leds * 3 + 2) 0).set 0 report_id).set 1
    (channel % 256)
  let colourSize := min (colours.length % 256) max_leds
  writeColours base 2 (colours.take colourSize)

/-- `device::set_colours(channel, colours)`: null-handle check; derives the
report class from `get_led_count() * 3` (possibly issuing the count query);
sends the buffer of `set_colours_msg`; fails iff the send returned `-1`. -/
def set_colours_list (st : DeviceState) (oracle : Nat → TransportResp)
    (channel : Nat) (colours : List Colour) : Bool × DeviceState × List Call :=
  if st.handleValid = false then (false, st, [])
  else
    let r1 := get_led_count st oracle
    let rc := determine_report_id ((r1.1 : Int) * 3)
    let msg := set_colours_msg rc.1 rc.2 channel colours
    let calls := r1.2.2 ++ [Call.mk CallKind.send msg]
    if (oracle r1.2.2.length).ret = -1 then (false, r1.2.1, calls)
    else (true, r1.2.1, calls)

/-- `device::set_colours(channel, red, green, blue)`: queries
`get_led_count()` **before** any null-handle check, builds that many identical
colours and delegates to `device::set_colours(channel, colours)`. -/
def set_colours_rgb (st : DeviceState) (oracle : Nat → TransportResp)
    (channel red green blue : Nat) : Bool × DeviceState × List Call :=
  let r1 := get_led_count st oracle
  let colours := List.replicate r1.1 (Colour.mk red green blue)
  let r2 := set_colours_list r1.2.1 (fun n => oracle (n + r1.2.2.length))
    channel colours
  (r2.1, r2.2.1, r1.2.2 ++ r2.2.2)

/-- `device::get_colour(index)`: for `index == 0` reads a 33-byte feature
report whose byte 0 is `0x01`; for `index > 0` derives the report class from
`(index + 1) * 3`, reads a `max_leds * 3 + 2`-byte report whose byte 0 is the
report id, and extracts red/green/blue from offsets `index*3+3`, `index*3+2`,
`index*3+4` of the mutated buffer.  No null-handle check; on a transport
return of `-1` the pre-initialised black colour is returned. -/
def get_colour (st : DeviceState) (oracle : Nat → TransportResp)
    (index : Nat) : Colour × DeviceState × List Call :=
  if index = 0 then
    let data : List Nat := 1 :: List.replicate 32 0
    let calls := [Call.mk CallKind.get data]
    if (oracle 0).ret = -1 then (Colour.mk 0 0 0, st, calls)
    else
      let reply := (oracle 0).reply
      (Colour.mk (reply.getD 1 0) (reply.getD 2 0) (reply.getD 3 0), st, calls)
  else
    let rc := determine_report_id (((index : Int) + 1) * 3)
    let data : List Nat := rc.1 :: List.replicate (rc.2 * 3 + 1) 0
    let calls := [Call.mk CallKind.get data]
    if (oracle 0).ret = -1 then (Colour.mk 0 0 0, st, calls)
    else
      let reply := (oracle 0).reply
      (Colour.mk (reply.getD (index * 3 + 3) 0) (reply.getD (index * 3 + 2) 0)
        (reply.getD (index * 3 + 4) 0), st, calls)

/-- `device::off(channel, index)`: `set_colour(channel, index, 0, 0, 0)`. -/
def off_at (st : DeviceState) (oracle : Nat → TransportResp)
    (channel index : Nat) : Bool × DeviceState × List Call :=
  set_colour st oracle channel index 0 0 0

/-- `device::off()`: `set_colours(0, 0, 0, 0)`. -/
def off_all (st : DeviceState) (oracle : Nat → TransportResp) :
    Bool × DeviceState × List Call :=
  set_colours_rgb st oracle 0 0 0 0

/-- `device::is_valid()`: true iff the handle is non-null. -/
def is_valid (st : DeviceState) : Bool :=
  st.handleValid

/-- C1 counterexample: the claim says every byte_count above 384 yields
`(10, 64)`, but at byte_count 385 the code returns the defaults `(9, 64)`. -/
theorem c1_counterexample :
    determine_report_id 385 = (9, 64) ∧ determine_report_id 385 ≠ (10, 64) := by
  decide

/-- C1 (amended): the tier table holds as claimed up to 384, but every
byte_count above 384 falls back to the initial defaults `(9, 64)` — report id
9, not 10. -/
theorem c1_report_class (c : Int) :
    (c ≤ 24 → determine_report_id c = (6, 8)) ∧
    (24 < c ∧ c ≤ 48 → determine_report_id c = (7, 16)) ∧
    (48 < c ∧ c ≤ 96 → determine_report_id c = (8, 32)) ∧
    (96 < c ∧ c ≤ 192 → determine_report_id c = (9, 64)) ∧
    (192 < c ∧ c ≤ 384 → determine_report_id c = (10, 64)) ∧
    (384 < c → determine_report_id c = (9, 64)) := by
  unfold determine_report_id
  refine ⟨fun h => ?_, fun h => ?_, fun h => ?_, fun h => ?_, fun h => ?_,
    fun h => ?_⟩ <;> split_ifs <;> first | rfl | omega

/-- C1 witness: the amended theorem applied at concrete byte counts 0, 30 and
400. -/
theorem c1_report_class_witness :
    determine_report_id 0 = (6, 8) ∧ determine_report_id 30 = (7, 16) ∧
      determine_report_id 400 = (9, 64) :=
  ⟨(c1_report_class 0).1 (by decide),
   (c1_report_class 30).2.1 ⟨by decide, by decide⟩,
   (c1_report_class 400).2.2.2.2.2 (by decide)⟩

/-- C2: `build_control_message` yields the 4-byte legacy buffer
`[0x01, R, G, B]` exactly when `index == 0 && channel == 0`, and the 6-byte
addressed buffer `[0x05, channel, index, R, G, B]` for every other pair. -/
theorem c2_control_message (index channel r g b : Nat) :
    (index = 0 ∧ channel = 0 →
      build_control_message index channel [r, g, b] = [1, r, g, b]) ∧
    (¬(index = 0 ∧ channel = 0) →
      build_control_message index channel [r, g, b] =
        [5, channel, index, r, g, b]) := by
  constructor
  · intro h
    simp [build_control_message, h]
  · intro h
    simp only [build_control_message, if_neg h]
    rfl

/-- C2 witness: both branches at concrete arguments. -/
theorem c2_control_message_witness :
    build_control_message 0 0 [10, 20, 30] = [1, 10, 20, 30] ∧
      build_control_message 3 2 [10, 20, 30] = [5, 2, 3, 10, 20, 30] :=
  ⟨(c2_control_message 0 0 10 20 30).1 ⟨rfl, rfl⟩,
   (c2_control_message 3 2 10 20 30).2 (by decide)⟩

/-- The bytes the copy loop of `device::set_colours` produces for a colour
list: three bytes per colour in GREEN, RED, BLUE order. -/
def colourBytes : List Colour → List Nat
  | [] => []
  | c :: cs => c.green % 256 :: c.red % 256 :: c.blue % 256 :: colourBytes cs

theorem colourBytes_length (cs : List Colour) :
    (colourBytes cs).length = 3 * cs.length := by
  induction cs with
  | nil => rfl
  | cons c cs ih =>
      simp only [colourBytes, List.length_cons, ih]
      ring

/-- Three consecutive in-place writes are a take/drop splice of the buffer. -/
theorem set3_eq (g r b : Nat) :
    ∀ (pos : Nat) (msg : List Nat), pos + 2 < msg.length →
      ((msg.set pos g).set (pos + 1) r).set (pos + 2) b =
        msg.take pos ++ g :: r :: b :: msg.drop (pos + 3)
  | 0, [], h => by simp at h
  | 0, [_], h => by simp at h
  | 0, [_, _], h => by simp at h
  | 0, _ :: _ :: _ :: _, _ => rfl
  | pos + 1, [], h => by simp at h
  | pos + 1, a :: t, h => by
      have h' : pos + 2 < t.length := by
        simp only [List.length_cons] at h
        omega
      have e3 : pos + 1 + 2 = (pos + 2) + 1 := by omega
      have e4 : pos + 1 + 3 = (pos + 3) + 1 := by omega
      rw [e3, e4]
      simp only [List.set_cons_succ, List.take_succ_cons, List.drop_succ_cons,
        List.cons_append]
      rw [set3_eq g r b pos t h']

/-- The copy loop of `device::set_colours` overwrites exactly the
`3 * cs.length` bytes starting at `pos`, with the GREEN/RED/BLUE byte image
of the colour list, leaving the rest of the buffer unchanged. -/
theorem writeColours_eq :
    ∀ (cs : List Colour) (msg : List Nat) (pos : Nat),
      pos + 3 * cs.length ≤ msg.length →
      writeColours msg pos cs =
        msg.take pos ++ colourBytes cs ++ msg.drop (pos + 3 * cs.length)
  | [], msg, pos, _ => by
      simp [writeColours, colourBytes]
  | c :: cs, msg, pos, h => by
      have hlen : pos + 2 < msg.length := by
        simp only [List.length_cons] at h
        omega
      have hle : pos ≤ msg.length := by omega
      simp only [writeColours]
      rw [set3_eq (c.green % 256) (c.red % 256) (c.blue % 256) pos msg hlen]
      have hA : (msg.take pos).length = pos := by
        simp [List.length_take]
        omega
      have h2 : pos + 3 + 3 * cs.length ≤
          (msg.take pos ++ c.green % 256 :: c.red % 256 :: c.blue % 256 ::
            msg.drop (pos + 3)).length := by
        simp only [List.length_append, List.length_cons, List.length_drop, hA]
        simp only [List.length_cons] at h
        omega
      rw [writeColours_eq cs _ (pos + 3) h2]
      have e_take :
          (msg.take pos ++ c.green % 256 :: c.red % 256 :: c.blue % 256 ::
            msg.drop (pos + 3)).take (pos + 3) =
          msg.take pos ++ [c.green % 256, c.red % 256, c.blue % 256] := by
        rw [List.take_append_eq_append_take, hA,
          List.take_of_length_le (by rw [hA]; omega)]
        have e : pos + 3 - pos = 3 := by omega
        rw [e]
        rfl
      have e_drop :
          (msg.take pos ++ c.green % 256 :: c.red % 256 :: c.blue % 256 ::
            msg.drop (pos + 3)).drop (pos + 3 + 3 * cs.length) =
          msg.drop (pos + 3 * (c :: cs).length) := by
        rw [List.drop_append_eq_append_drop, hA,
          List.drop_eq_nil_of_le (by rw [hA]; omega)]
        have e : pos + 3 + 3 * cs.length - pos = 3 + 3 * cs.length := by omega
        rw [e]
        have e2 : (c.green % 256 :: c.red % 256 :: c.blue % 256 ::
            msg.drop (pos + 3)) =
            [c.green % 256, c.red % 256, c.blue % 256] ++ msg.drop (pos + 3) :=
          rfl
        have e3 : 3 + 3 * cs.length =
            ([c.green % 256, c.red % 256, c.blue % 256] : List Nat).length +
              3 * cs.length := rfl
        rw [e2, e3, List.drop_append, List.drop_drop, List.nil_append]
        congr 1
        simp only [List.length_cons]
        omega
      rw [e_take, e_drop]
      simp only [colourBytes, List.append_assoc, List.cons_append,
        List.nil_append]

theorem set_colours_msg_core (ri ml ch k : Nat) (colours : List Colour)
    (hkml : k ≤ ml) (hkl : k ≤ colours.length) :
    writeColours
        (((List.replicate (ml * 3 + 2) 0).set 0 ri).set 1 (ch % 256)) 2
        (colours.take k) =
      ri :: ch % 256 ::
        (colourBytes (colours.take k) ++ List.replicate ((ml - k) * 3) 0) := by
  have hbase : ((List.replicate (ml * 3 + 2) 0).set 0 ri).set 1 (ch % 256) =
      ri :: ch % 256 :: List.replicate (ml * 3) 0 := rfl
  rw [hbase]
  have hlen : (colours.take k).length = k := by
    simp only [List.length_take]
    omega
  have hcond : 2 + 3 * (colours.take k).length ≤
      (ri :: ch % 256 :: List.replicate (ml * 3) 0).length := by
    simp only [hlen, List.length_cons, List.length_replicate]
    omega
  rw [writeColours_eq _ _ _ hcond]
  have e1 : (ri :: ch % 256 :: List.replicate (ml * 3) 0).take 2 =
      [ri, ch % 256] := rfl
  have e2 : (ri :: ch % 256 :: List.replicate (ml * 3) 0).drop
        (2 + 3 * (colours.take k).length) =
      List.replicate ((ml - k) * 3) 0 := by
    rw [hlen]
    have e : 2 + 3 * k = (3 * k + 1) + 1 := by omega
    rw [e, List.drop_succ_cons, List.drop_succ_cons, List.drop_replicate]
    congr 1
    omega
  rw [e1, e2]
  simp [List.cons_append]

/-- The outgoing buffer of `set_colours`, fully described: report id, channel
byte, then the first `min(len % 256, max_leds)` colours as G,R,B triples,
padded with zeros up to `max_leds * 3 + 2` bytes. -/
theorem set_colours_msg_eq (ri ml ch : Nat) (colours : List Colour) :
    set_colours_msg ri ml ch colours =
      ri :: ch % 256 ::
        (colourBytes (colours.take (min (colours.length % 256) ml)) ++
          List.replicate ((ml - min (colours.length % 256) ml) * 3) 0) := by
  exact set_colours_msg_core ri ml ch _ colours (Nat.min_le_right _ _)
    (le_trans (Nat.min_le_left _ _) (Nat.mod_le _ _))

theorem set_colours_msg_length (ri ml ch : Nat) (colours : List Colour) :
    (set_colours_msg ri ml ch colours).length = ml * 3 + 2 := by
  rw [set_colours_msg_eq]
  simp only [List.length_cons, List.length_append, colourBytes_length,
    List.length_replicate, List.length_take]
  have h1 : min (colours.length % 256) ml ≤ ml := Nat.min_le_right _ _
  have h2 : min (colours.length % 256) ml ≤ colours.length :=
    le_trans (Nat.min_le_left _ _) (Nat.mod_le _ _)
  omega

/-- Follows the spec's words for C3: the outgoing buffer copies
`min(colours.length, max_leds)` colours — the input length taken as-is,
without the `static_cast<uint8_t>` truncation the code applies. -/
def set_colours_msg_claimed (report_id max_leds channel : Nat)
    (colours : List Colour) : List Nat :=
  let base := ((List.replicate (max_leds * 3 + 2) 0).set 0 report_id).set 1
    (channel % 256)
  let colourSize := min colours.length max_leds
  writeColours base 2 (colours.take colourSize)

set_option maxRecDepth 40000 in
/-- C3 counterexample: with 256 input colours and a device reporting one LED
(report class `(6, 8)`), the claim demands `min(256, 8) = 8` colours copied —
byte 2 would be the first colour's green value 2 — but the code truncates the
length through `uint8_t`, `min(0, 8) = 0`, and copies nothing: byte 2 stays 0. -/
theorem c3_counterexample :
    ((set_colours_list (DeviceState.mk true (some 1))
        (fun _ => TransportResp.mk 0 []) 0
        (List.replicate 256 (Colour.mk 1 2 3))).2.2.map Call.msg) =
      [set_colours_msg 6 8 0 (List.replicate 256 (Colour.mk 1 2 3))] ∧
    (set_colours_msg 6 8 0 (List.replicate 256 (Colour.mk 1 2 3))).getD 2 0
      = 0 ∧
    (set_colours_msg_claimed 6 8 0
        (List.replicate 256 (Colour.mk 1 2 3))).getD 2 0 = 2 ∧
    set_colours_msg 6 8 0 (List.replicate 256 (Colour.mk 1 2 3)) ≠
      set_colours_msg_claimed 6 8 0 (List.replicate 256 (Colour.mk 1 2 3)) := by
  decide

/-- C3 (amended): with a valid handle and a cached LED count `lc`,
`set_colours` sends one buffer, sized `max_leds * 3 + 2` from the report class
for `lc * 3` (not from the input length), with byte 0 the report id, byte 1
the channel, and — starting at offset 2 — exactly
`min(colours.length mod 256, max_leds)` colours, each as G,R,B bytes, the
rest zeros (extra colours silently dropped; the length is first truncated to
`uint8_t`). -/
theorem c3_buffer (lc chan : Nat) (colours : List Colour) (st : DeviceState)
    (oracle : Nat → TransportResp) (hh : st.handleValid = true)
    (hc : st.led_count = some lc) :
    (set_colours_list st oracle chan colours).2.2 =
      [Call.mk CallKind.send
        (set_colours_msg (determine_report_id ((lc : Int) * 3)).1
          (determine_report_id ((lc : Int) * 3)).2 chan colours)] ∧
    set_colours_msg (determine_report_id ((lc : Int) * 3)).1
        (determine_report_id ((lc : Int) * 3)).2 chan colours =
      (determine_report_id ((lc : Int) * 3)).1 :: chan % 256 ::
        (colourBytes (colours.take (min (colours.length % 256)
            (determine_report_id ((lc : Int) * 3)).2)) ++
          List.replicate (((determine_report_id ((lc : Int) * 3)).2 -
            min (colours.length % 256)
              (determine_report_id ((lc : Int) * 3)).2) * 3) 0) ∧
    (set_colours_msg (determine_report_id ((lc : Int) * 3)).1
        (determine_report_id ((lc : Int) * 3)).2 chan colours).length =
      (determine_report_id ((lc : Int) * 3)).2 * 3 + 2 := by
  refine ⟨?_, set_colours_msg_eq _ _ _ _, set_colours_msg_length _ _ _ _⟩
  simp only [set_colours_list, hh, get_led_count, hc, List.length_nil,
    List.nil_append]
  rw [if_neg (by decide : ¬(true = false))]
  by_cases hret : (oracle 0).ret = -1
  · rw [if_pos hret]
  · rw [if_neg hret]

/-- C3 witness: a device with one cached LED, channel 3, two input colours;
both colours fit (`min(2 mod 256, 8) = 2`). -/
theorem c3_buffer_witness :
    (set_colours_list (DeviceState.mk true (some 1))
        (fun _ => TransportResp.mk 0 []) 3
        [Colour.mk 9 8 7, Colour.mk 6 5 4]).2.2 =
      [Call.mk CallKind.send
        (set_colours_msg 6 8 3 [Colour.mk 9 8 7, Colour.mk 6 5 4])] ∧
    set_colours_msg 6 8 3 [Colour.mk 9 8 7, Colour.mk 6 5 4] =
      [6, 3, 8, 9, 7, 5, 6, 4] ++ List.replicate 18 0 := by
  constructor
  · exact (c3_buffer 1 3 [Colour.mk 9 8 7, Colour.mk 6 5 4]
      (DeviceState.mk true (some 1)) (fun _ => TransportResp.mk 0 []) rfl
      rfl).1
  · decide

/-- C4 counterexample: `get_mode` performs no null-handle check — invoked on
a device whose handle is null it still issues one transport call, where the
claim demands zero. -/
theorem c4_counterexample :
    ((get_mode (DeviceState.mk false none)
        (fun _ => TransportResp.mk 0 [])).2.2).length = 1 ∧ (1 : Nat) ≠ 0 := by
  decide

/-- C4 (amended): with a null handle the sending operations (`set_mode`,
`set_colour`, `set_colours(channel, colours)`, `set_led_count`) return false
and perform zero transport calls, but `get_mode`, `get_colour` and (with the
cache unset) `get_led_count` perform their transport call regardless — only
the senders check the handle; the `set_colours(channel, r, g, b)` overload
also reaches the transport through its `get_led_count()` call. -/
theorem c4_null_handle (st : DeviceState) (oracle : Nat → TransportResp)
    (m chan idx r g b cnt : Nat) (colours : List Colour)
    (h : st.handleValid = false) :
    set_mode st oracle m = (false, st, []) ∧
    set_colour st oracle chan idx r g b = (false, st, []) ∧
    set_colours_list st oracle chan colours = (false, st, []) ∧
    set_led_count st oracle cnt = (false, st, []) ∧
    (get_mode st oracle).2.2.length = 1 ∧
    (get_colour st oracle idx).2.2.length = 1 ∧
    (st.led_count = none → (get_led_count st oracle).2.2.length = 1) ∧
    (st.led_count = none → (set_colours_rgb st oracle chan r g b).1 = false ∧
      (set_colours_rgb st oracle chan r g b).2.2.length = 1) := by
  refine ⟨?_, ?_, ?_, ?_, ?_, ?_, ?_, ?_⟩
  · simp [set_mode, h]
  · simp [set_colour, h]
  · simp [set_colours_list, h]
  · simp [set_led_count, h]
  · unfold get_mode
    split <;> rfl
  · unfold get_colour
    split <;> split <;> rfl
  · intro hc
    simp [get_led_count, hc]
  · intro hc
    constructor <;>
      simp [set_colours_rgb, get_led_count, hc, set_colours_list, h]

/-- C4 witness: the amended theorem at a concrete null-handle device. -/
theorem c4_null_handle_witness :
    set_mode (DeviceState.mk false none) (fun _ => TransportResp.mk 0 []) 1 =
      (false, DeviceState.mk false none, []) ∧
    (get_mode (DeviceState.mk false none)
      (fun _ => TransportResp.mk 0 [])).2.2.length = 1 ∧
    (get_led_count (DeviceState.mk false none)
      (fun _ => TransportResp.mk 0 [])).2.2.length = 1 :=
  have h := c4_null_handle (DeviceState.mk false none)
    (fun _ => TransportResp.mk 0 []) 1 2 3 4 5 6 7 [] rfl
  ⟨h.1, h.2.2.2.2.1, h.2.2.2.2.2.2.1 rfl⟩

/-- C5 counterexample: the one transport call `get_led_count` makes on a cache
miss uses the **get** primitive, not the send primitive the claim names. -/
theorem c5_counterexample :
    ((get_led_count (DeviceState.mk true none)
        (fun _ => TransportResp.mk 0 [129, 5])).2.2.map Call.kind) =
      [CallKind.get] ∧ CallKind.get ≠ CallKind.send := by
  decide

/-- C5 (amended): on a cache miss `get_led_count` issues exactly one
`get_feature_report` call (unlike `get_mode`, which reads via send) whose
request is the count message built with value 0, `[0x81, 0]`, then caches and
returns byte 1 of the in-place-mutated buffer. -/
theorem c5_count_query (st : DeviceState) (oracle : Nat → TransportResp)
    (h : st.led_count = none) :
    get_led_count st oracle =
      ((oracle 0).reply.getD 1 0,
        DeviceState.mk st.handleValid (some ((oracle 0).reply.getD 1 0)),
        [Call.mk CallKind.get (build_count_message 0)]) ∧
    build_count_message 0 = [129, 0] := by
  exact ⟨by simp [get_led_count, h], rfl⟩

/-- C5 witness: a concrete cache miss whose reply carries the count 7. -/
theorem c5_count_query_witness :
    get_led_count (DeviceState.mk true none)
        (fun _ => TransportResp.mk (-1) [129, 7]) =
      (7, DeviceState.mk true (some 7), [Call.mk CallKind.get [129, 0]]) :=
  (c5_count_query (DeviceState.mk true none)
    (fun _ => TransportResp.mk (-1) [129, 7]) rfl).1

/-- A cache hit: `get_led_count` returns the cached value untouched, with no
transport call. -/
theorem get_led_count_cached (st : DeviceState) (oracle : Nat → TransportResp)
    (n : Nat) (h : st.led_count = some n) :
    get_led_count st oracle = (n, st, []) := by
  simp [get_led_count, h]

/-- A cache miss: `get_led_count` issues the count query and caches byte 1 of
the mutated buffer. -/
theorem get_led_count_uncached (st : DeviceState)
    (oracle : Nat → TransportResp) (h : st.led_count = none) :
    get_led_count st oracle =
      ((oracle 0).reply.getD 1 0,
        DeviceState.mk st.handleValid (some ((oracle 0).reply.getD 1 0)),
        [Call.mk CallKind.get (build_count_message 0)]) := by
  simp [get_led_count, h]

/-- C6: `get_colour(0)` reads one 33-byte get-feature-report with report id
0x01 and returns reply bytes 1, 2, 3 as red, green, blue unreordered;
`get_colour(index)` for `index > 0` reads one buffer of `max_leds * 3 + 2`
bytes whose byte 0 is the report id derived from `(index + 1) * 3` and
extracts red from offset `index*3+3`, green from `index*3+2`, blue from
`index*3+4`; on a transport failure it returns black. -/
theorem c6_get_colour (st : DeviceState) (oracle : Nat → TransportResp)
    (index : Nat) :
    ((get_colour st oracle 0).2.2.map
        (fun c => (c.kind, c.msg.length, c.msg.getD 0 0)) =
      [(CallKind.get, 33, 1)]) ∧
    ((oracle 0).ret ≠ -1 →
      (get_colour st oracle 0).1 =
        Colour.mk ((oracle 0).reply.getD 1 0) ((oracle 0).reply.getD 2 0)
          ((oracle 0).reply.getD 3 0)) ∧
    (0 < index →
      (get_colour st oracle index).2.2.map
          (fun c => (c.kind, c.msg.length, c.msg.getD 0 0)) =
        [(CallKind.get,
          (determine_report_id (((index : Int) + 1) * 3)).2 * 3 + 2,
          (determine_report_id (((index : Int) + 1) * 3)).1)]) ∧
    (0 < index → (oracle 0).ret ≠ -1 →
      (get_colour st oracle index).1 =
        Colour.mk ((oracle 0).reply.getD (index * 3 + 3) 0)
          ((oracle 0).reply.getD (index * 3 + 2) 0)
          ((oracle 0).reply.getD (index * 3 + 4) 0)) ∧
    ((oracle 0).ret = -1 → (get_colour st oracle index).1 = Colour.mk 0 0 0) := by
  refine ⟨?_, ?_, ?_, ?_, ?_⟩
  · by_cases hret : (oracle 0).ret = -1 <;> simp [get_colour, hret]
  · intro hret
    simp [get_colour, hret]
  · intro hi
    have hne : ¬(index = 0) := by omega
    by_cases hret : (oracle 0).ret = -1 <;>
      simp [get_colour, hne, hret]
  · intro hi hret
    have hne : ¬(index = 0) := by omega
    simp [get_colour, hne, hret]
  · intro hret
    by_cases hidx : index = 0 <;> simp [get_colour, hidx, hret]

/-- C6 witness: index 1 with a 40-byte reply `[0, 1, 2, ...]` yields
`(red, green, blue) = (6, 5, 7)`; a failing read yields black; index 0
extracts reply bytes 1..3. -/
theorem c6_get_colour_witness :
    (get_colour (DeviceState.mk true none)
        (fun _ => TransportResp.mk 0 (List.range 40)) 1).1 =
      Colour.mk 6 5 7 ∧
    (get_colour (DeviceState.mk true none)
        (fun _ => TransportResp.mk (-1) []) 2).1 = Colour.mk 0 0 0 ∧
    (get_colour (DeviceState.mk true none)
        (fun _ => TransportResp.mk 0 (List.range 40)) 0).1 =
      Colour.mk 1 2 3 := by
  refine ⟨?_, ?_, ?_⟩
  · have h := (c6_get_colour (DeviceState.mk true none)
      (fun _ => TransportResp.mk 0 (List.range 40)) 1).2.2.2.1 (by decide)
      (by decide)
    rw [h]
    decide
  · exact (c6_get_colour (DeviceState.mk true none)
      (fun _ => TransportResp.mk (-1) []) 2).2.2.2.2 rfl
  · have h := (c6_get_colour (DeviceState.mk true none)
      (fun _ => TransportResp.mk 0 (List.range 40)) 0).2.1 (by decide)
    rw [h]
    decide

/-- C7: with an unset cache, the first `get_led_count` performs one transport
call and the second returns the same value with none; after a successful
`set_led_count n`, `get_led_count` returns `n` with no transport call. -/
theorem c7_cache_coherence (st st2 : DeviceState)
    (oracle oracle2 orc orc2 : Nat → TransportResp) (n : Nat)
    (h : st.led_count = none) (hn : n < 256)
    (hs : (set_led_count st2 orc n).1 = true) :
    (get_led_count st oracle).2.2.length = 1 ∧
    (get_led_count (get_led_count st oracle).2.1 oracle2).1 =
      (get_led_count st oracle).1 ∧
    (get_led_count (get_led_count st oracle).2.1 oracle2).2.2 = [] ∧
    (get_led_count (set_led_count st2 orc n).2.1 orc2).1 = n ∧
    (get_led_count (set_led_count st2 orc n).2.1 orc2).2.2 = [] := by
  have hu := get_led_count_uncached st oracle h
  have hb : st2.handleValid = true := by
    by_contra hcon
    have hvb : st2.handleValid = false := by
      cases hv : st2.handleValid
      · rfl
      · exact absurd hv hcon
    simp [set_led_count, hvb] at hs
  have hr : ¬((orc 0).ret = -1) := by
    intro hret
    simp [set_led_count, hb, hret] at hs
  have hst2 : (set_led_count st2 orc n).2.1 =
      DeviceState.mk st2.handleValid (some (n % 256)) := by
    simp [set_led_count, hb, hr]
  refine ⟨?_, ?_, ?_, ?_, ?_⟩
  · rw [hu]
    rfl
  · rw [hu, get_led_count_cached _ oracle2 _ rfl]
  · rw [hu, get_led_count_cached _ oracle2 _ rfl]
  · rw [hst2, get_led_count_cached _ orc2 _ rfl]
    exact Nat.mod_eq_of_lt hn
  · rw [hst2, get_led_count_cached _ orc2 _ rfl]

/-- C7 witness: a fresh device whose count query reports 9 LEDs, and a cached
device successfully set to 12 LEDs. -/
theorem c7_cache_coherence_witness :
    (get_led_count (DeviceState.mk true none)
      (fun _ => TransportResp.mk 0 [129, 9])).2.2.length = 1 ∧
    (get_led_count (get_led_count (DeviceState.mk true none)
        (fun _ => TransportResp.mk 0 [129, 9])).2.1
      (fun _ => TransportResp.mk 0 [])).1 =
      (get_led_count (DeviceState.mk true none)
        (fun _ => TransportResp.mk 0 [129, 9])).1 ∧
    (get_led_count (set_led_count (DeviceState.mk true (some 3))
        (fun _ => TransportResp.mk 0 []) 12).2.1
      (fun _ => TransportResp.mk 0 [])).1 = 12 :=
  have h := c7_cache_coherence (DeviceState.mk true none)
    (DeviceState.mk true (some 3)) (fun _ => TransportResp.mk 0 [129, 9])
    (fun _ => TransportResp.mk 0 []) (fun _ => TransportResp.mk 0 [])
    (fun _ => TransportResp.mk 0 []) 12 rfl (by decide) (by decide)
  ⟨h.1, h.2.1, h.2.2.2.1⟩

/-- C8 counterexample: a transport return of `-2` is negative, so the claim
demands failure (false), but the code only compares against `-1` and reports
success. -/
theorem c8_counterexample :
    (set_mode (DeviceState.mk true none)
      (fun _ => TransportResp.mk (-2) []) 1).1 = true ∧ (-2 : Int) < 0 := by
  decide

/-- C8 (amended): given a non-null handle (and, for `set_colours`, a cached
LED count), every sending operation returns false exactly when the
transport's return value equals `-1` — not when it is merely negative. -/
theorem c8_send_result (st : DeviceState) (oracle : Nat → TransportResp)
    (m chan idx r g b cnt lc : Nat) (colours : List Colour)
    (hh : st.handleValid = true) (hc : st.led_count = some lc) :
    ((set_mode st oracle m).1 = false ↔ (oracle 0).ret = -1) ∧
    ((set_colour st oracle chan idx r g b).1 = false ↔ (oracle 0).ret = -1) ∧
    ((set_led_count st oracle cnt).1 = false ↔ (oracle 0).ret = -1) ∧
    ((set_colours_list st oracle chan colours).1 = false ↔
      (oracle 0).ret = -1) := by
  by_cases hret : (oracle 0).ret = -1 <;>
    simp [set_mode, set_colour, set_led_count, set_colours_list,
      get_led_count, hh, hc, hret]

/-- C8 witness: a `-1` return fails `set_mode`; a return of `3` succeeds
`set_colours`. -/
theorem c8_send_result_witness :
    (set_mode (DeviceState.mk true (some 2))
      (fun _ => TransportResp.mk (-1) []) 1).1 = false ∧
    (set_colours_list (DeviceState.mk true (some 2))
      (fun _ => TransportResp.mk 3 []) 0 []).1 = true := by
  have h1 := c8_send_result (DeviceState.mk true (some 2))
    (fun _ => TransportResp.mk (-1) []) 1 0 0 0 0 0 0 2 [] rfl rfl
  have h2 := c8_send_result (DeviceState.mk true (some 2))
    (fun _ => TransportResp.mk 3 []) 1 0 0 0 0 0 0 2 [] rfl rfl
  constructor
  · exact h1.1.mpr rfl
  · cases hres : (set_colours_list (DeviceState.mk true (some 2))
        (fun _ => TransportResp.mk 3 []) 0 []).1
    · exact absurd (h2.2.2.2.mp hres) (by decide)
    · rfl

/-- C9: at index 64 the report class for `(64 + 1) * 3 = 195` bytes is
`(10, 64)`, so `get_colour` allocates `64 * 3 + 2 = 194` bytes — yet it reads
offsets `64*3+2 = 194`, `64*3+3 = 195` and `64*3+4 = 196`, none of which is
below the buffer size: all three extraction reads are out of bounds. -/
theorem c9_out_of_bounds :
    determine_report_id (((64 : Int) + 1) * 3) = (10, 64) ∧
    ¬(64 * 3 + 2 < (determine_report_id (((64 : Int) + 1) * 3)).2 * 3 + 2) ∧
    ¬(64 * 3 + 3 < (determine_report_id (((64 : Int) + 1) * 3)).2 * 3 + 2) ∧
    ¬(64 * 3 + 4 < (determine_report_id (((64 : Int) + 1) * 3)).2 * 3 + 2) := by
  decide

/-- C10: when the cache is unset and the count-query read fails leaving the
request buffer `[0x81, 0]` unmutated, `get_led_count` still caches byte 1 —
the 0 the message was built with — returns 0, and every later call returns 0
from the cache with no transport call: the failed query is never retried. -/
theorem c10_failure_caches_zero (st : DeviceState)
    (oracle oracle2 : Nat → TransportResp)
    (h : st.led_count = none) (_hfail : (oracle 0).ret = -1)
    (hnm : (oracle 0).reply = build_count_message 0) :
    (get_led_count st oracle).1 = 0 ∧
    (get_led_count st oracle).2.1 = DeviceState.mk st.handleValid (some 0) ∧
    (get_led_count st oracle).2.2.length = 1 ∧
    get_led_count (get_led_count st oracle).2.1 oracle2 =
      (0, DeviceState.mk st.handleValid (some 0), []) := by
  have hu := get_led_count_uncached st oracle h
  have hb : (oracle 0).reply.getD 1 0 = 0 := by
    rw [hnm]
    rfl
  rw [hu, hb]
  exact ⟨rfl, rfl, rfl, get_led_count_cached _ oracle2 _ rfl⟩

/-- C10 witness: a concrete failing count query (`ret = -1`, buffer left as
`[0x81, 0]`), then a second call whose oracle would report 55 — the cache
answers 0 and the oracle is never consulted. -/
theorem c10_failure_caches_zero_witness :
    (get_led_count (DeviceState.mk true none)
      (fun _ => TransportResp.mk (-1) [129, 0])).1 = 0 ∧
    get_led_count (get_led_count (DeviceState.mk true none)
        (fun _ => TransportResp.mk (-1) [129, 0])).2.1
      (fun _ => TransportResp.mk 0 [129, 55]) =
      (0, DeviceState.mk true (some 0), []) :=
  have h := c10_failure_caches_zero (DeviceState.mk true none)
    (fun _ => TransportResp.mk (-1) [129, 0])
    (fun _ => TransportResp.mk 0 [129, 55]) rfl rfl rfl
  ⟨h.1, h.2.2.2⟩
